import Mathlib

/-!
Shallow embedding of the bounded-concurrency streaming synthesis pipeline of
`server.py` (Chatterbox-TTS-Server): the process-wide performance state, the
`/api/performance` stats endpoint, the `/tts` endpoint `custom_tts_endpoint`,
and the streaming helper `generate_audio_stream`.

Modelling conventions:
- numpy 1-D sample buffers are `List Int`; encoded byte payloads are `List Nat`.
- Python floats (temperatures, latencies, the rolling average) are `Rat`;
  the arithmetic the claims exercise is exact in both models.
- The external collaborators (the engine, the `utils` audio transforms and
  encoders, the configuration getters) are fields of an `Env` record: the
  server code treats them as opaque calls, so the embedding passes them in as
  functions.  `Env.response_time` stands for the elapsed wall time
  `time.time() - start_time` observed by one request.
- A raised `HTTPException(status, detail)` is the `TTSResult.httpError`
  constructor; a `StreamingResponse` of bytes is `TTSResult.ok`.
- The module-level globals `request_semaphore` (an `asyncio.Semaphore(20)`
  whose `_value` is the count of free permits), `request_queue`
  (an `asyncio.Queue(maxsize=100)`) and the `performance_stats` dict form the
  `ServerState` record that is threaded through each handler.
- `engine.synthesize` may return `(None, None)` for a failed chunk; the model
  collapses the pair of optionals into one `Option (Buffer, rate)`.
-/

abbrev Buffer := List Int

abbrev Bytes := List Nat

/-- Arguments of one `engine.synthesize` call, as built by `server.py`
(text, audio prompt path, generation parameters). -/
structure SynthArgs where
  text : String
  audio_prompt_path : Option String
  temperature : Rat
  exaggeration : Rat
  cfg_weight : Rat
  seed : Int
deriving DecidableEq, Repr

/-- The `performance_stats` module-level dict of `server.py`
(lines 124-129), initialised to all zeroes. -/
structure PerformanceStats where
  total_requests : Nat
  avg_response_time : Rat
  concurrent_requests : Nat
  queue_size : Nat
deriving DecidableEq, Repr

/-- The process-wide mutable globals of `server.py`: the free-permit count of
`request_semaphore` (its `_value`, 20 at start), the contents of
`request_queue`, and `performance_stats`. -/
structure ServerState where
  semaphore_value : Nat
  queue : List Nat
  stats : PerformanceStats
deriving DecidableEq, Repr

/-- Initial value of `performance_stats` (server.py lines 124-129). -/
def statsInit : PerformanceStats :=
  { total_requests := 0, avg_response_time := 0,
    concurrent_requests := 0, queue_size := 0 }

/-- Initial server state: `asyncio.Semaphore(20)`, empty queue, zero stats. -/
def serverStateInit : ServerState :=
  { semaphore_value := 20, queue := [], stats := statsInit }

/-- The external collaborators of the pipeline, as consumed by `server.py`:
the engine, the `utils` transforms and encoders, and the configuration
getters.  `response_time` is the elapsed time one request observes. -/
structure Env where
  model_loaded : Bool
  olivia_exists : Bool
  synthesize : SynthArgs → Option (Buffer × Nat)
  apply_speed_factor : Buffer → Nat → Rat → Buffer × Nat
  trim_lead_trail_silence : Buffer → Nat → Buffer
  fix_internal_silence : Buffer → Nat → Buffer
  enable_silence_trimming : Bool
  enable_internal_silence_fix : Bool
  encode_audio_streaming : Buffer → Nat → String → Nat → Nat → List Bytes
  encode_audio_wav_optimized : Buffer → Nat → Option Bytes
  encode_audio_optimized : Buffer → Nat → String → Nat → Option Bytes
  audio_sample_rate : Nat
  default_temperature : Rat
  default_exaggeration : Rat
  default_cfg_weight : Rat
  default_seed : Int
  default_speed_factor : Rat
  response_time : Rat

/-- The body of a `/tts` request.  The fields are the ones `server.py`
references (`text`, `output_format`, `temperature`, `exaggeration`,
`cfg_weight`, `seed`, `speed_factor`, `split_text`, `chunk_size`,
`voice_mode`); the two voice-identifier fields are the caller-specified voice
of the spec data model (`models.py` is not part of the analysed sources). -/
structure CustomTTSRequest where
  text : String
  voice_mode : String
  predefined_voice_id : Option String
  reference_audio_filename : Option String
  output_format : Option String
  temperature : Option Rat
  exaggeration : Option Rat
  cfg_weight : Option Rat
  seed : Option Int
  speed_factor : Option Rat
  split_text : Option Bool
  chunk_size : Option Nat
deriving Repr

/-- Outcome of one handler call: either an OK streaming response carrying the
encoded bytes and the media type, or a raised `HTTPException`. -/
inductive TTSResult where
  | ok (bytes : Bytes) (media_type : String)
  | httpError (status : Nat) (detail : String)
deriving DecidableEq, Repr

/-- A handler run: its HTTP-level result, the server state it leaves behind,
and the `engine.synthesize` calls it performed, in order. -/
structure TTSOutcome where
  result : TTSResult
  state : ServerState
  synthCalls : List SynthArgs
deriving Repr

/-- The `/api/performance` handler writes `queue_size := request_queue.qsize()`
and `concurrent_requests := request_semaphore._value` (the FREE permit count)
into `performance_stats` (server.py lines 268-272).  The subsequent
`memory_usage` block references an unimported `torch` name, but the stats
mutation precedes it. -/
def get_performance_stats (st : ServerState) : ServerState :=
  { st with stats :=
      { st.stats with
          queue_size := st.queue.length
          concurrent_requests := st.semaphore_value } }

/-- Accumulator of the chunk-merge loop of `custom_tts_endpoint`
(server.py lines 748-775): `all_audio_segments_np`,
`engine_output_sample_rate`, and the positions (0-based) for which the
inconsistent-sample-rate warning was logged. -/
structure ChunkAcc where
  segments : List Buffer
  engineSr : Option Nat
  warnings : List Nat
deriving DecidableEq, Repr

/-- Accumulator at loop entry. -/
def initChunkAcc : ChunkAcc := { segments := [], engineSr := none, warnings := [] }

/-- One successful iteration of the chunk-merge loop: record the first
sample rate, warn (not fail) on a mismatch with the recorded rate, and append
the chunk buffer (server.py lines 754-775). -/
def processStep (acc : ChunkAcc) (i : Nat) (buf : Buffer) (sr : Nat) : ChunkAcc :=
  match acc.engineSr with
  | none => { acc with engineSr := some sr, segments := acc.segments ++ [buf] }
  | some sr0 =>
      if sr0 ≠ sr then
        { acc with warnings := acc.warnings ++ [i], segments := acc.segments ++ [buf] }
      else
        { acc with segments := acc.segments ++ [buf] }

/-- The HTTP detail raised for a failed chunk (server.py line 751); the
0-based loop position `i` is presented 1-based as in the source f-string. -/
def chunkFailDetail (i : Nat) : String :=
  "TTS engine failed to synthesize audio for chunk " ++ toString (i + 1) ++ "."

/-- The chunk-merge loop of `custom_tts_endpoint` (server.py lines 749-775):
iterate over `chunk_results` with the running index; a `None` result raises
immediately (fail fast) carrying the position; a successful result updates
the accumulator via `processStep`. -/
def processChunkResults :
    List (Option (Buffer × Nat)) → Nat → ChunkAcc → Except Nat ChunkAcc
  | [], _, acc => .ok acc
  | none :: _, i, _ => .error i
  | some (buf, sr) :: rest, i, acc =>
      processChunkResults rest (i + 1) (processStep acc i buf sr)

/-- `np.concatenate(segs) if len(segs) > 1 else segs[0]`
(server.py lines 789-793). -/
def concatSegments (segs : List Buffer) : Buffer :=
  if 1 < segs.length then segs.flatten else segs.headD []

/-- The `str.lower()` of the format comparison, character by character
(ASCII case folding, which covers the format names in play). -/
def strLower (s : String) : String := ⟨s.data.map Char.toLower⟩

/-- Encoding of the final buffer (server.py lines 816-833): the WAV path uses
`encode_audio_wav_optimized`, every other format `encode_audio_optimized`
with the configured target sample rate. -/
def encodeStage (env : Env) (fmt : String) (buf : Buffer) (sr : Nat) : Option Bytes :=
  if strLower fmt == "wav" then env.encode_audio_wav_optimized buf sr
  else env.encode_audio_optimized buf sr fmt env.audio_sample_rate

/-- The HTTP detail raised when encoding fails or the output is too small
(server.py lines 843-846). -/
def encodeFailDetail (fmt : String) : String :=
  "Failed to encode audio to " ++ fmt ++ " or generated invalid audio."

/-- The size gate on the encoded payload (server.py lines 839-846):
`encoded_audio_bytes is None or len(encoded_audio_bytes) < 100` raises a 500;
otherwise the bytes pass through. -/
def checkEncoded (fmt : String) : Option Bytes → Except (Nat × String) Bytes
  | none => .error (500, encodeFailDetail fmt)
  | some bytes =>
      if bytes.length < 100 then .error (500, encodeFailDetail fmt)
      else .ok bytes

/-- Tail of the endpoint after concatenation (server.py lines 839-870): gate
the encoded size, then fold the response time into the rolling average
`avg = (avg * (total_requests - 1) + response_time) / total_requests`
(lines 857-861) and return the streaming response with
`media_type = audio/<format>`. -/
def finishEncoding (env : Env) (st1 : ServerState) (args : List SynthArgs)
    (fmt : String) (o : Option Bytes) : TTSOutcome :=
  match checkEncoded fmt o with
  | .error (s, d) => { result := .httpError s d, state := st1, synthCalls := args }
  | .ok bytes =>
      let n := st1.stats.total_requests
      let stats2 :=
        { st1.stats with
            avg_response_time :=
              (st1.stats.avg_response_time * ((n : Rat) - 1) + env.response_time)
                / (n : Rat) }
      { result := .ok bytes ("audio/" ++ fmt)
        state := { st1 with stats := stats2 }
        synthCalls := args }

/-- The `engine.synthesize` argument record built for one chunk
(server.py lines 714-741): the audio prompt is always the resolved
`Olivia.wav` path, each generation parameter is the request value when
present, else the configured default. -/
def buildSynthArgs (env : Env) (req : CustomTTSRequest) (chunk : String) : SynthArgs :=
  { text := chunk
    audio_prompt_path := some "Olivia.wav"
    temperature := req.temperature.getD env.default_temperature
    exaggeration := req.exaggeration.getD env.default_exaggeration
    cfg_weight := req.cfg_weight.getD env.default_cfg_weight
    seed := req.seed.getD env.default_seed }

/-- The `/tts` handler `custom_tts_endpoint` (server.py lines 644-870),
step by step in source order:
1. `performance_stats["total_requests"] += 1` (line 654), before any check;
2. 503 when the model is not loaded (lines 661-666);
3. resolve the fixed voice file `Olivia.wav`, 500 when absent (lines 676-681);
   the request voice fields are never consulted;
4. `text_chunks = [request.text]` — splitting is disabled (line 705) — and
   the (unreachable) 400 for an empty chunk list (lines 708-711);
5. synthesize every chunk (lines 744-746) and merge via the chunk loop;
6. a failed chunk raises the 500 of `chunkFailDetail` (lines 750-753);
7. the (unreachable) 500s for no segments / unknown sample rate (777-786);
8. concatenate (788-793; the list model cannot raise the ValueError of
   `np.concatenate`, whose handler at 808-814 is therefore not embedded);
9. encode, gate the size, update the rolling average and respond (816-870).
The speed-factor, silence-trimming and internal-silence stages in this
handler are commented out in the source (lines 762-773 and 796-806), so no
`Env` transform or flag is consulted. -/
def custom_tts_endpoint (env : Env) (st : ServerState) (req : CustomTTSRequest) :
    TTSOutcome :=
  let stats1 := { st.stats with total_requests := st.stats.total_requests + 1 }
  let st1 := { st with stats := stats1 }
  if !env.model_loaded then
    { result := .httpError 503 "TTS engine model is not currently loaded or available."
      state := st1, synthCalls := [] }
  else if !env.olivia_exists then
    { result := .httpError 500 "Default voice 'Olivia.wav' not available."
      state := st1, synthCalls := [] }
  else
    let text_chunks := [req.text]
    if text_chunks.isEmpty then
      { result := .httpError 400 "Text processing resulted in no usable chunks."
        state := st1, synthCalls := [] }
    else
      let args := text_chunks.map (buildSynthArgs env req)
      let chunk_results := args.map env.synthesize
      match processChunkResults chunk_results 0 initChunkAcc with
      | .error i =>
          { result := .httpError 500 (chunkFailDetail i), state := st1, synthCalls := args }
      | .ok acc =>
          if acc.segments.isEmpty then
            { result := .httpError 500 "Audio generation resulted in no output."
              state := st1, synthCalls := args }
          else
            match acc.engineSr with
            | none =>
                { result := .httpError 500 "Failed to determine engine sample rate."
                  state := st1, synthCalls := args }
            | some sr =>
                let final_audio := concatSegments acc.segments
                let fmt := req.output_format.getD "wav"
                finishEncoding env st1 args fmt (encodeStage env fmt final_audio sr)

/-- The streaming helper `generate_audio_stream` (server.py lines 554-613):
synthesize, then apply, in source order, the speed factor when the requested
factor is not 1, the lead/trail silence trim when its flag is set, and the
internal-silence fix when its flag is set, then encode in 1024-sample chunks.
A failed synthesis raises, modelled as the `Except.error` of the message of
line 583. -/
def generate_audio_stream (env : Env) (text : String)
    (audio_prompt_path : Option String) (temperature exaggeration cfg_weight : Rat)
    (seed : Int) (speed_factor : Rat) (output_format : String)
    (target_sample_rate : Nat) : Except String (List Bytes) :=
  match env.synthesize
      { text := text, audio_prompt_path := audio_prompt_path,
        temperature := temperature, exaggeration := exaggeration,
        cfg_weight := cfg_weight, seed := seed } with
  | none => .error "Audio synthesis failed"
  | some (audio0, sr0) =>
      let p := if speed_factor ≠ 1 then env.apply_speed_factor audio0 sr0 speed_factor
               else (audio0, sr0)
      let audio2 := if env.enable_silence_trimming
                    then env.trim_lead_trail_silence p.1 p.2 else p.1
      let audio3 := if env.enable_internal_silence_fix
                    then env.fix_internal_silence audio2 p.2 else audio2
      .ok (env.encode_audio_streaming audio3 p.2 output_format target_sample_rate 1024)

/-- The post-processing pipeline exactly as section 4.3 of the spec words it,
used to compare against the source: stage (1) speed-factor time-scaling when
the requested factor is not 1.0, then stage (2) leading/trailing silence trim
when enabled, then stage (3) internal-silence normalization when enabled. -/
def specPostProcess (env : Env) (speed_factor : Rat) (buf : Buffer) (sr : Nat) :
    Buffer × Nat :=
  let p := if speed_factor ≠ 1 then env.apply_speed_factor buf sr speed_factor
           else (buf, sr)
  let b2 := if env.enable_silence_trimming
            then env.trim_lead_trail_silence p.1 p.2 else p.1
  let b3 := if env.enable_internal_silence_fix
            then env.fix_internal_silence b2 p.2 else b2
  (b3, p.2)

/-- The streaming pipeline as the spec words it, for comparison with
`generate_audio_stream`: synthesize, then run `specPostProcess` (the three
conditional stages in their fixed order) and encode the result in
1024-sample chunks; a failed synthesis is the error of server.py line 583. -/
def specStream (env : Env) (text : String) (p : Option String)
    (t e c : Rat) (s : Int) (sf : Rat) (fmt : String) (tsr : Nat) :
    Except String (List Bytes) :=
  match env.synthesize
      { text := text, audio_prompt_path := p,
        temperature := t, exaggeration := e, cfg_weight := c, seed := s } with
  | none => .error "Audio synthesis failed"
  | some (buf, sr) =>
      .ok (env.encode_audio_streaming (specPostProcess env sf buf sr).1
        (specPostProcess env sf buf sr).2 fmt tsr 1024)

/-- The per-request mutation of `performance_stats` on the successful path of
`custom_tts_endpoint`: `total_requests += 1` at entry (line 654) and the
incremental-mean fold at the end (lines 857-861). -/
def serveRequest (stats : PerformanceStats) (latency : Rat) : PerformanceStats :=
  let stats1 := { stats with total_requests := stats.total_requests + 1 }
  let n := stats1.total_requests
  { stats1 with
      avg_response_time :=
        (stats1.avg_response_time * ((n : Rat) - 1) + latency) / (n : Rat) }

/-- Operational model of the worker pool under `asyncio.gather`
(server.py lines 744-746): the jobs complete in the order given by
`order` (a permutation of the chunk indices), producing completion-ordered
pairs of (original index, result). -/
def runCompleted (chunks : List String) (run : String → Option (Buffer × Nat))
    (order : List Nat) : List (Nat × Option (Buffer × Nat)) :=
  order.map (fun j => (j, run (chunks.getD j "")))

/-- Recover the result of original index `i` from the completion-ordered
pairs. -/
def findResult (i : Nat) (completed : List (Nat × Option (Buffer × Nat))) :
    Option (Buffer × Nat) :=
  match completed.find? (fun p => p.1 == i) with
  | some p => p.2
  | none => none

/-- The list `asyncio.gather` hands back: one result per submitted chunk, in
submission order, however the completions interleaved. -/
def gatherResults (chunks : List String) (run : String → Option (Buffer × Nat))
    (order : List Nat) : List (Option (Buffer × Nat)) :=
  (List.range chunks.length).map (fun i => findResult i (runCompleted chunks run order))

/-! ### Concrete fixtures for witnesses and counterexamples -/

/-- A fully working set of collaborators for concrete runs: the engine always
yields the buffer `[1, 2, 3]` at 24000 Hz and the optimized WAV encoder frames
its input behind 100 header bytes. -/
def envOk : Env :=
  { model_loaded := true
    olivia_exists := true
    synthesize := fun _ => some ([1, 2, 3], 24000)
    apply_speed_factor := fun b sr _ => (b, sr)
    trim_lead_trail_silence := fun b _ => b
    fix_internal_silence := fun b _ => b
    enable_silence_trimming := false
    enable_internal_silence_fix := false
    encode_audio_streaming := fun _ _ _ _ _ => []
    encode_audio_wav_optimized := fun b _ => some (List.replicate 100 0 ++ b.map Int.natAbs)
    encode_audio_optimized := fun _ _ _ _ => none
    audio_sample_rate := 24000
    default_temperature := 1
    default_exaggeration := 1
    default_cfg_weight := 1
    default_seed := 0
    default_speed_factor := 1
    response_time := 1 }

/-- A plain request body: text only, everything else at its defaults. -/
def reqBasic : CustomTTSRequest :=
  { text := "hello"
    voice_mode := "predefined"
    predefined_voice_id := none
    reference_audio_filename := none
    output_format := none
    temperature := none
    exaggeration := none
    cfg_weight := none
    seed := none
    speed_factor := none
    split_text := none
    chunk_size := none }

/-- Collaborators with the TTS model not loaded. -/
def envNoModel : Env := { envOk with model_loaded := false }

/-- Collaborators with the predefined voice file Olivia.wav absent. -/
def envNoOlivia : Env := { envOk with olivia_exists := false }

/-- Collaborators for the post-processing comparison: silence trimming is
enabled in the configuration, the trim transform visibly drops the first
sample, and the engine reports the buffer [1, 2, 3] at 10 Hz. -/
def envTrimOn : Env :=
  { envOk with
      synthesize := fun _ => some ([1, 2, 3], 10)
      enable_silence_trimming := true
      trim_lead_trail_silence := fun b _ => b.drop 1 }

/-- Server state in which all 20 permits are held (zero free) and the waiting
queue holds 100 entries, its configured capacity. -/
def serverStateSaturated : ServerState :=
  { semaphore_value := 0, queue := List.replicate 100 0, stats := statsInit }

/-! ### Helper lemmas about the embedded definitions -/

theorem concatSegments_eq_flatten (segs : List Buffer) :
    concatSegments segs = segs.flatten := by
  unfold concatSegments
  match segs with
  | [] => simp
  | [a] => simp
  | a :: b :: t => simp [Nat.lt_of_sub_eq_succ]

theorem map_getD_range {α β : Type} (l : List α) (f : α → β) (d : α) :
    (List.range l.length).map (fun i => f (l.getD i d)) = l.map f := by
  induction l with
  | nil => simp
  | cons a t ih =>
      simp only [List.length_cons, List.range_succ_eq_map, List.map_cons,
        List.map_map, Function.comp, List.getD_cons_succ, List.getD_cons_zero]
      exact congrArg₂ _ rfl ih

theorem findResult_runCompleted (run : String → Option (Buffer × Nat))
    (chunks : List String) (order : List Nat) (i : Nat) (hmem : i ∈ order) :
    findResult i (runCompleted chunks run order) = run (chunks.getD i "") := by
  induction order with
  | nil => cases hmem
  | cons j rest ih =>
      unfold findResult runCompleted
      by_cases hji : j = i
      · subst hji
        simp [List.find?_cons_of_pos]
      · have hmem' : i ∈ rest := by
          cases hmem with
          | head => exact absurd rfl hji
          | tail _ h => exact h
        have := ih hmem'
        unfold findResult runCompleted at this
        simpa [List.find?_cons_of_neg, hji] using this

theorem gatherResults_perm (chunks : List String)
    (run : String → Option (Buffer × Nat)) (order : List Nat)
    (hperm : order.Perm (List.range chunks.length)) :
    gatherResults chunks run order = chunks.map run := by
  unfold gatherResults
  have hcongr : ∀ i ∈ List.range chunks.length,
      findResult i (runCompleted chunks run order) = run (chunks.getD i "") := by
    intro i hi
    exact findResult_runCompleted run chunks order i (hperm.mem_iff.mpr hi)
  calc (List.range chunks.length).map (fun i => findResult i (runCompleted chunks run order))
      = (List.range chunks.length).map (fun i => run (chunks.getD i "")) :=
        List.map_congr_left hcongr
    _ = chunks.map run := map_getD_range chunks run ""

theorem processChunkResults_allSome (l : List (Buffer × Nat)) :
    ∀ (i : Nat) (acc : ChunkAcc),
    ∃ acc', processChunkResults (l.map some) i acc = .ok acc'
      ∧ acc'.segments = acc.segments ++ l.map Prod.fst
      ∧ (∀ sr0, acc.engineSr = some sr0 →
          acc'.engineSr = some sr0 ∧
          ∀ k b r, l.get? k = some (b, r) → r ≠ sr0 → (i + k) ∈ acc'.warnings)
      ∧ (∀ w ∈ acc.warnings, w ∈ acc'.warnings) := by
  induction l with
  | nil =>
      intro i acc
      exact ⟨acc, rfl, by simp, fun sr0 h => ⟨h, by simp⟩, fun w hw => hw⟩
  | cons hd t ih =>
      intro i acc
      obtain ⟨b, r⟩ := hd
      obtain ⟨acc', hrun, hseg, hsr, hmono⟩ := ih (i + 1) (processStep acc i b r)
      have hstep_seg : (processStep acc i b r).segments = acc.segments ++ [b] := by
        unfold processStep
        match hacc : acc.engineSr with
        | none => simp
        | some sr0 =>
            by_cases hne : sr0 ≠ r <;> simp [hne]
      have hstep_warn : ∀ w ∈ acc.warnings, w ∈ (processStep acc i b r).warnings := by
        intro w hw
        unfold processStep
        match hacc : acc.engineSr with
        | none => simpa using hw
        | some sr0 =>
            by_cases hne : sr0 ≠ r <;> simp [hne, List.mem_append, hw]
      refine ⟨acc', ?_, ?_, ?_, ?_⟩
      · simpa [processChunkResults] using hrun
      · rw [hseg, hstep_seg]
        simp
      · intro sr0 hsr0
        have hstep_sr : (processStep acc i b r).engineSr = some sr0 := by
          unfold processStep
          rw [hsr0]
          by_cases hne : sr0 ≠ r <;> simp [hne]
        obtain ⟨hsr', hwarn'⟩ := hsr sr0 hstep_sr
        refine ⟨hsr', ?_⟩
        intro k bk rk hk hne
        match k with
        | 0 =>
            simp only [List.get?_cons_zero, Option.some_inj] at hk
            obtain ⟨hb, hr⟩ := Prod.mk.injEq .. ▸ hk
            have hiw : i ∈ (processStep acc i b r).warnings := by
              unfold processStep
              rw [hsr0]
              have hne' : sr0 ≠ r := by
                rw [← hr] at hne
                exact fun h => hne h.symm
              simp [hne']
            simpa using hmono i hiw
        | k' + 1 =>
            have : (i + 1) + k' ∈ acc'.warnings :=
              hwarn' k' bk rk (by simpa using hk) hne
            have harith : i + (k' + 1) = (i + 1) + k' := by omega
            rw [harith]
            exact this
      · intro w hw
        exact hmono w (hstep_warn w hw)

theorem processChunkResults_firstFailure (results : List (Option (Buffer × Nat))) :
    ∀ (i : Nat) (acc : ChunkAcc), none ∈ results →
    ∃ j, processChunkResults results i acc = .error (i + j)
      ∧ results.get? j = some none
      ∧ ∀ k, k < j → results.get? k ≠ some none := by
  induction results with
  | nil => intro i acc h; cases h
  | cons hd t ih =>
      intro i acc hmem
      match hd with
      | none =>
          refine ⟨0, by simp [processChunkResults], by simp, ?_⟩
          intro k hk
          omega
      | some (b, r) =>
          have hmem' : none ∈ t := by
            cases hmem with
            | tail _ h => exact h
          obtain ⟨j', hrun, hget, hmin⟩ := ih (i + 1) (processStep acc i b r) hmem'
          refine ⟨j' + 1, ?_, by simpa using hget, ?_⟩
          · have harith : i + (j' + 1) = (i + 1) + j' := by omega
            rw [harith]
            simpa [processChunkResults] using hrun
          · intro k hk
            match k with
            | 0 => simp
            | k' + 1 =>
                have : k' < j' := by omega
                simpa using hmin k' this

theorem finishEncoding_ok_length (env : Env) (st1 : ServerState)
    (args : List SynthArgs) (fmt : String) (o : Option Bytes)
    (bytes : Bytes) (mt : String)
    (h : (finishEncoding env st1 args fmt o).result = .ok bytes mt) :
    100 ≤ bytes.length := by
  unfold finishEncoding checkEncoded at h
  match o with
  | none => simp at h
  | some b =>
      by_cases hlen : b.length < 100
      · simp [hlen] at h
      · simp only [hlen, if_false, TTSResult.ok.injEq] at h
        obtain ⟨hb, -⟩ := h
        subst hb
        omega

theorem finishEncoding_ok_stats (env : Env) (st1 : ServerState)
    (args : List SynthArgs) (fmt : String) (o : Option Bytes)
    (bytes : Bytes) (mt : String)
    (h : (finishEncoding env st1 args fmt o).result = .ok bytes mt) :
    (finishEncoding env st1 args fmt o).state.stats =
      { st1.stats with
          avg_response_time :=
            (st1.stats.avg_response_time * ((st1.stats.total_requests : Rat) - 1)
              + env.response_time) / (st1.stats.total_requests : Rat) } := by
  unfold finishEncoding checkEncoded at h ⊢
  match o with
  | none => simp at h
  | some b =>
      by_cases hlen : b.length < 100
      · simp [hlen] at h
      · simp [hlen]

theorem finishEncoding_preserves (env : Env) (st1 : ServerState)
    (args : List SynthArgs) (fmt : String) (o : Option Bytes) :
    (finishEncoding env st1 args fmt o).state.stats.total_requests
        = st1.stats.total_requests
      ∧ (finishEncoding env st1 args fmt o).state.stats.concurrent_requests
        = st1.stats.concurrent_requests
      ∧ (finishEncoding env st1 args fmt o).state.semaphore_value
        = st1.semaphore_value
      ∧ (finishEncoding env st1 args fmt o).state.queue = st1.queue := by
  unfold finishEncoding checkEncoded
  match o with
  | none => simp
  | some b =>
      by_cases hlen : b.length < 100 <;> simp [hlen]

theorem finishEncoding_state (env : Env) (st1 : ServerState)
    (args : List SynthArgs) (fmt : String) (o : Option Bytes) :
    ∃ a : Rat, (finishEncoding env st1 args fmt o).state
      = { st1 with stats := { st1.stats with avg_response_time := a } } := by
  unfold finishEncoding checkEncoded
  match o with
  | none => exact ⟨st1.stats.avg_response_time, rfl⟩
  | some b =>
      by_cases hlen : b.length < 100
      · simp only [hlen, if_true]
        exact ⟨st1.stats.avg_response_time, rfl⟩
      · simp only [hlen, if_false]
        exact ⟨(st1.stats.avg_response_time * ((st1.stats.total_requests : Rat) - 1)
          + env.response_time) / (st1.stats.total_requests : Rat), rfl⟩

theorem custom_tts_endpoint_state (env : Env) (st : ServerState)
    (req : CustomTTSRequest) :
    ∃ a : Rat, (custom_tts_endpoint env st req).state
      = { st with stats := { st.stats with
            total_requests := st.stats.total_requests + 1,
            avg_response_time := a } } := by
  unfold custom_tts_endpoint
  dsimp only
  repeat' split
  all_goals try exact ⟨st.stats.avg_response_time, rfl⟩
  all_goals exact finishEncoding_state env _ _ _ _

theorem custom_tts_endpoint_ok_cases (env : Env) (st : ServerState)
    (req : CustomTTSRequest) :
    ∀ bytes mt, (custom_tts_endpoint env st req).result = .ok bytes mt →
      100 ≤ bytes.length ∧
      (custom_tts_endpoint env st req).state.stats
        = serveRequest st.stats env.response_time := by
  intro bytes mt
  unfold custom_tts_endpoint
  dsimp only
  repeat' split
  all_goals intro h
  all_goals first
    | exact ⟨finishEncoding_ok_length _ _ _ _ _ _ _ h,
        by rw [finishEncoding_ok_stats _ _ _ _ _ _ _ h]; rfl⟩
    | simp at h

theorem finishEncoding_synthCalls (env : Env) (st1 : ServerState)
    (args : List SynthArgs) (fmt : String) (o : Option Bytes) :
    (finishEncoding env st1 args fmt o).synthCalls = args := by
  unfold finishEncoding checkEncoded
  match o with
  | none => rfl
  | some b => by_cases hlen : b.length < 100 <;> simp [hlen]

theorem custom_tts_endpoint_synthCalls (env : Env) (st : ServerState)
    (req : CustomTTSRequest) :
    (custom_tts_endpoint env st req).synthCalls = []
      ∨ (custom_tts_endpoint env st req).synthCalls
          = [buildSynthArgs env req req.text] := by
  unfold custom_tts_endpoint
  dsimp only
  repeat' split
  all_goals simp [finishEncoding_synthCalls]

/-! ### Claim theorems -/

/-- C1.  The claim says the `concurrent_requests` gauge increases by 1 when a
permit is acquired and decreases by 1 on release, on every completion path.
In the code no permit is ever acquired: on every path of
`custom_tts_endpoint` the gauge, the semaphore and the queue are left exactly
as they were, and the `/api/performance` handler merely overwrites the gauge
with the FREE-permit count of the untouched semaphore (constant 20). -/
theorem c1_concurrent_gauge_never_touched (env : Env) (st : ServerState)
    (req : CustomTTSRequest) :
    (custom_tts_endpoint env st req).state.stats.concurrent_requests
        = st.stats.concurrent_requests
      ∧ (custom_tts_endpoint env st req).state.semaphore_value
        = st.semaphore_value
      ∧ (custom_tts_endpoint env st req).state.queue = st.queue
      ∧ (get_performance_stats st).stats.concurrent_requests
        = st.semaphore_value := by
  obtain ⟨a, ha⟩ := custom_tts_endpoint_state env st req
  rw [ha]
  exact ⟨rfl, rfl, rfl, rfl⟩

/-- C2.  The claim says a submit arriving with all 20 permits held and the
100-slot queue full fails immediately with an Overloaded (service
unavailable) rejection.  In the code neither the semaphore nor the queue is
consulted: this concrete run starts from exactly that saturated state and the
request is admitted, synthesized (`synthCalls` is nonempty) and answered 200
with the encoded audio, leaving semaphore and queue untouched. -/
theorem c2_saturated_state_still_admits :
    (custom_tts_endpoint envOk serverStateSaturated reqBasic).result
        = .ok (List.replicate 100 0 ++ [1, 2, 3]) "audio/wav"
      ∧ (custom_tts_endpoint envOk serverStateSaturated reqBasic).synthCalls ≠ []
      ∧ (custom_tts_endpoint envOk serverStateSaturated reqBasic).state.semaphore_value = 0
      ∧ (custom_tts_endpoint envOk serverStateSaturated reqBasic).state.queue
        = List.replicate 100 0 := by
  refine ⟨by decide, by decide, by decide, by decide⟩

/-- C3 (counterexample).  The claim says a request rejected before admission
leaves `total_requests` unchanged.  With the model not loaded the request is
rejected 503, yet `total_requests` was already incremented from 0 to 1. -/
theorem c3_rejected_request_still_counted :
    (custom_tts_endpoint envNoModel serverStateInit reqBasic).result
        = .httpError 503 "TTS engine model is not currently loaded or available."
      ∧ (custom_tts_endpoint envNoModel serverStateInit reqBasic).state.stats.total_requests
        = 1 := by
  refine ⟨by decide, by decide⟩

/-- C3 (amended).  `total_requests` is incremented exactly once per request
that reaches the endpoint, whether the request is later admitted, rejected or
failed: the increment happens at entry, before any check. -/
theorem c3_total_requests_incremented_per_arrival (env : Env)
    (st : ServerState) (req : CustomTTSRequest) :
    (custom_tts_endpoint env st req).state.stats.total_requests
      = st.stats.total_requests + 1 := by
  obtain ⟨a, ha⟩ := custom_tts_endpoint_state env st req
  rw [ha]

/-- C4.  If any chunk result is a failure, the merge loop aborts the whole
request with the error of the FIRST failing position (the raised detail names
that chunk, 1-based, via `chunkFailDetail`), and no accumulator — hence no
sibling chunk buffer — is ever produced for the caller. -/
theorem c4_fail_fast_first_failing_index
    (results : List (Option (Buffer × Nat))) (hmem : none ∈ results) :
    ∃ j, processChunkResults results 0 initChunkAcc = .error j
      ∧ results.get? j = some none
      ∧ (∀ k, k < j → results.get? k ≠ some none)
      ∧ ∀ acc, processChunkResults results 0 initChunkAcc ≠ .ok acc := by
  obtain ⟨j, hrun, hget, hmin⟩ :=
    processChunkResults_firstFailure results 0 initChunkAcc hmem
  refine ⟨j, by simpa using hrun, hget, hmin, ?_⟩
  intro acc hok
  rw [hok] at hrun
  cases hrun

/-- C4 witness: with chunk 0 and chunk 2 successful and chunk 1 failed, the
loop reports the failure of chunk index 1 and yields no buffer list. -/
theorem c4_fail_fast_witness :
    ∃ j, processChunkResults
          ([some ([1], 8), none, some ([2], 8)] : List (Option (Buffer × Nat)))
          0 initChunkAcc = .error j
      ∧ ([some ([1], 8), none, some ([2], 8)] :
          List (Option (Buffer × Nat))).get? j = some none
      ∧ (∀ k, k < j →
          ([some ([1], 8), none, some ([2], 8)] :
            List (Option (Buffer × Nat))).get? k ≠ some none)
      ∧ ∀ acc, processChunkResults
          ([some ([1], 8), none, some ([2], 8)] : List (Option (Buffer × Nat)))
          0 initChunkAcc ≠ .ok acc :=
  c4_fail_fast_first_failing_index
    ([some ([1], 8), none, some ([2], 8)] : List (Option (Buffer × Nat)))
    (by decide)

/-- C5.  For any completion order of the workers that is a permutation of the
chunk indices, the gathered per-chunk results merge into segments whose
concatenation is the flatten of the chunk buffers in ascending original
index order. -/
theorem c5_assembly_in_index_order (chunks : List String)
    (run : String → Buffer × Nat) (order : List Nat)
    (hperm : order.Perm (List.range chunks.length)) :
    ∃ acc, processChunkResults
        (gatherResults chunks (fun c => some (run c)) order) 0 initChunkAcc
          = .ok acc
      ∧ concatSegments acc.segments
          = (chunks.map (fun c => (run c).1)).flatten := by
  rw [gatherResults_perm chunks (fun c => some (run c)) order hperm]
  have hmap : chunks.map (fun c => some (run c)) = (chunks.map run).map some := by
    simp [List.map_map]
  rw [hmap]
  obtain ⟨acc, hrun, hseg, -, -⟩ :=
    processChunkResults_allSome (chunks.map run) 0 initChunkAcc
  refine ⟨acc, hrun, ?_⟩
  rw [concatSegments_eq_flatten, hseg]
  simp only [initChunkAcc, List.map_map, List.nil_append]
  rfl

/-- C5 witness: three chunks completing in the order 2, 0, 1 still assemble
as chunk 0 then chunk 1 then chunk 2. -/
theorem c5_assembly_witness :
    ∃ acc, processChunkResults
        (gatherResults ["a", "b", "c"]
          (fun c => some ((fun s => ([(s.length : Int)], 7)) c)) [2, 0, 1])
        0 initChunkAcc = .ok acc
      ∧ concatSegments acc.segments
          = (["a", "b", "c"].map
              (fun c => ((fun s => ([(s.length : Int)], 7)) c).1)).flatten :=
  c5_assembly_in_index_order ["a", "b", "c"]
    (fun s => ([(s.length : Int)], 7)) [2, 0, 1] (by decide)

/-- C6.  When every chunk succeeds, the merge loop records the sample rate of
chunk 0 as `engine_output_sample_rate`, succeeds regardless of the rates the
later chunks report, and for every later chunk whose rate differs from the
chunk-0 rate the inconsistency warning is recorded at that chunk position —
the request does not fail because of the mismatch. -/
theorem c6_first_chunk_rate_wins (b0 : Buffer) (sr0 : Nat)
    (rest : List (Buffer × Nat)) :
    ∃ acc, processChunkResults (((b0, sr0) :: rest).map some) 0 initChunkAcc
          = .ok acc
      ∧ acc.engineSr = some sr0
      ∧ ∀ k b r, rest.get? k = some (b, r) → r ≠ sr0 → k + 1 ∈ acc.warnings := by
  obtain ⟨acc, hrun, hseg, hsr, hmono⟩ :=
    processChunkResults_allSome rest 1 (processStep initChunkAcc 0 b0 sr0)
  have hstep : processStep initChunkAcc 0 b0 sr0
      = { segments := [b0], engineSr := some sr0, warnings := [] } := rfl
  obtain ⟨hsr', hwarn⟩ := hsr sr0 (by rw [hstep])
  refine ⟨acc, ?_, hsr', ?_⟩
  · simpa [processChunkResults] using hrun
  · intro k b r hk hne
    have := hwarn k b r hk hne
    simpa [Nat.add_comm] using this

/-- C6 witness: two chunks at 10 Hz and 20 Hz merge successfully, the request
rate is the chunk-0 rate 10 Hz, and the mismatch warning for the second chunk
(position 1) is recorded. -/
theorem c6_first_chunk_rate_witness :
    ∃ acc, processChunkResults (([([5], 10), ([6], 20)] :
          List (Buffer × Nat)).map some) 0 initChunkAcc = .ok acc
      ∧ acc.engineSr = some 10
      ∧ ∀ k b r, ([([6], 20)] : List (Buffer × Nat)).get? k = some (b, r)
          → r ≠ 10 → k + 1 ∈ acc.warnings :=
  c6_first_chunk_rate_wins ([5] : Buffer) 10 ([([6], 20)] : List (Buffer × Nat))

/-- C7 (counterexample).  The claim says every request applies the enabled
post-processing stages during assembly.  Concretely, with silence trimming
enabled and a trim transform that drops the first sample, the `/tts` endpoint
still returns the encoding of the untouched buffer [1, 2, 3]; the encoding of
the spec-mandated pipeline output (trim applied, buffer [2, 3]) differs. -/
theorem c7_endpoint_skips_enabled_stages :
    (custom_tts_endpoint envTrimOn serverStateInit reqBasic).result
        = .ok (List.replicate 100 0 ++ [1, 2, 3]) "audio/wav"
      ∧ envTrimOn.encode_audio_wav_optimized
          (specPostProcess envTrimOn
            (reqBasic.speed_factor.getD envTrimOn.default_speed_factor)
            (concatSegments [[1, 2, 3]]) 10).1 10
        = some (List.replicate 100 0 ++ [2, 3])
      ∧ (TTSResult.ok (List.replicate 100 0 ++ [1, 2, 3]) "audio/wav"
          ≠ TTSResult.ok (List.replicate 100 0 ++ [2, 3]) "audio/wav") := by
  refine ⟨by decide, by decide, by decide⟩

/-- C7 (amended).  The fixed-order conditional pipeline of the claim is
exactly what `generate_audio_stream` performs on its synthesized buffer
(speed factor when not 1, then trim when enabled, then internal-silence fix
when enabled, as `specPostProcess` words it); the live `/tts` endpoint
`custom_tts_endpoint`, however, applies none of the three stages: its outcome
is invariant under replacing every stage transform and both stage flags. -/
theorem c7_fixed_order_amended :
    (∀ (env : Env) (text : String) (p : Option String) (t e c : Rat) (s : Int)
        (sf : Rat) (fmt : String) (tsr : Nat),
      generate_audio_stream env text p t e c s sf fmt tsr
        = specStream env text p t e c s sf fmt tsr)
    ∧ (∀ (env : Env) (st : ServerState) (req : CustomTTSRequest)
        (f1 : Buffer → Nat → Rat → Buffer × Nat) (f2 f3 : Buffer → Nat → Buffer)
        (b1 b2 : Bool),
      custom_tts_endpoint
        { env with
            apply_speed_factor := f1, trim_lead_trail_silence := f2,
            fix_internal_silence := f3, enable_silence_trimming := b1,
            enable_internal_silence_fix := b2 } st req
      = custom_tts_endpoint env st req) := by
  constructor
  · intro env text p t e c s sf fmt tsr
    unfold generate_audio_stream specStream specPostProcess
    match env.synthesize
        { text := text, audio_prompt_path := p,
          temperature := t, exaggeration := e, cfg_weight := c, seed := s } with
    | none => rfl
    | some (buf, sr) => rfl
  · intro env st req f1 f2 f3 b1 b2
    rfl

/-- C8.  The endpoint never returns an encoded payload below the 100-byte
minimum: any OK response carries at least 100 bytes, and the size gate maps
both an absent encoder result and an undersized one to the 500 error carrying
`encodeFailDetail` instead of the bytes. -/
theorem c8_small_encoded_output_rejected :
    (∀ (env : Env) (st : ServerState) (req : CustomTTSRequest)
        (bytes : Bytes) (mt : String),
      (custom_tts_endpoint env st req).result = .ok bytes mt →
        100 ≤ bytes.length)
    ∧ (∀ (fmt : String) (bytes : Bytes), bytes.length < 100 →
        checkEncoded fmt (some bytes) = .error (500, encodeFailDetail fmt))
    ∧ (∀ (fmt : String),
        checkEncoded fmt none = .error (500, encodeFailDetail fmt)) := by
  refine ⟨?_, ?_, ?_⟩
  · intro env st req bytes mt h
    exact (custom_tts_endpoint_ok_cases env st req bytes mt h).1
  · intro fmt bytes hlen
    simp [checkEncoded, hlen]
  · intro fmt
    rfl

/-- C8 witness: a successful concrete run returns a 103-byte payload (at
least 100), and a 1-byte encoder output is rejected by the size gate. -/
theorem c8_small_encoded_witness :
    (100 ≤ (List.replicate 100 0 ++ [1, 2, 3] : Bytes).length)
    ∧ checkEncoded "wav" (some ([5] : Bytes))
        = .error (500, encodeFailDetail "wav") :=
  ⟨c8_small_encoded_output_rejected.1 envOk serverStateInit reqBasic
      (List.replicate 100 0 ++ [1, 2, 3]) "audio/wav" (by decide),
    c8_small_encoded_output_rejected.2.1 "wav" [5] (by decide)⟩

/-- C9.  On every successful request the endpoint updates the stats exactly
by `serveRequest` (increment the count, then fold the latency into the
rolling average); `serveRequest` realises the incremental mean
`avg = (avg * (n - 1) + sample) / n` with `n` the post-increment count; and
three sequential requests of latency 100, 200 and 300 leave the stored
average at exactly 200. -/
theorem c9_rolling_average_incremental_mean :
    (∀ (env : Env) (st : ServerState) (req : CustomTTSRequest)
        (bytes : Bytes) (mt : String),
      (custom_tts_endpoint env st req).result = .ok bytes mt →
        (custom_tts_endpoint env st req).state.stats
          = serveRequest st.stats env.response_time)
    ∧ (∀ (s : PerformanceStats) (lat : Rat),
        (serveRequest s lat).avg_response_time
          = (s.avg_response_time * (((s.total_requests : Rat) + 1) - 1) + lat)
              / ((s.total_requests : Rat) + 1))
    ∧ (List.foldl serveRequest statsInit [100, 200, 300]).avg_response_time
        = 200 := by
  refine ⟨?_, ?_, ?_⟩
  · intro env st req bytes mt h
    exact (custom_tts_endpoint_ok_cases env st req bytes mt h).2
  · intro s lat
    simp [serveRequest]
  · norm_num [List.foldl, serveRequest, statsInit]

/-- C9 witness: a successful concrete run (latency 1, first request ever)
stores exactly the `serveRequest` update of the initial stats. -/
theorem c9_rolling_average_witness :
    (custom_tts_endpoint envOk serverStateInit reqBasic).state.stats
      = serveRequest serverStateInit.stats envOk.response_time :=
  c9_rolling_average_incremental_mean.1 envOk serverStateInit reqBasic
    (List.replicate 100 0 ++ [1, 2, 3]) "audio/wav" (by decide)

/-- C10.  The voice-selection fields of the request (voice mode and both
voice identifiers) have no effect on the outcome; when the fixed voice file
Olivia.wav is absent (and the model is loaded, which is checked first) the
request fails 500 before any synthesis call; and every synthesis call the
endpoint ever makes uses the Olivia.wav prompt path. -/
theorem c10_voice_selection_ignored :
    (∀ (env : Env) (st : ServerState) (req : CustomTTSRequest) (m : String)
        (pv rv : Option String),
      custom_tts_endpoint env st
          { req with
              voice_mode := m, predefined_voice_id := pv,
              reference_audio_filename := rv }
        = custom_tts_endpoint env st req)
    ∧ (∀ (env : Env) (st : ServerState) (req : CustomTTSRequest),
        env.model_loaded = true → env.olivia_exists = false →
        (custom_tts_endpoint env st req).result
            = .httpError 500 "Default voice 'Olivia.wav' not available."
          ∧ (custom_tts_endpoint env st req).synthCalls = [])
    ∧ (∀ (env : Env) (st : ServerState) (req : CustomTTSRequest)
        (a : SynthArgs),
      a ∈ (custom_tts_endpoint env st req).synthCalls →
        a.audio_prompt_path = some "Olivia.wav") := by
  refine ⟨?_, ?_, ?_⟩
  · intro env st req m pv rv
    rfl
  · intro env st req hml holv
    unfold custom_tts_endpoint
    simp [hml, holv]
  · intro env st req a ha
    rcases custom_tts_endpoint_synthCalls env st req with h | h
    · rw [h] at ha
      cases ha
    · rw [h] at ha
      have hae := List.mem_singleton.mp ha
      subst hae
      rfl

/-- C10 witness: with the model loaded but Olivia.wav absent, the concrete
run is rejected 500 and performs no synthesis call. -/
theorem c10_voice_selection_witness :
    (custom_tts_endpoint envNoOlivia serverStateInit reqBasic).result
        = .httpError 500 "Default voice 'Olivia.wav' not available."
      ∧ (custom_tts_endpoint envNoOlivia serverStateInit reqBasic).synthCalls
        = [] :=
  c10_voice_selection_ignored.2.1 envNoOlivia serverStateInit reqBasic rfl rfl
